import Mathlib

/-!
# DoctorFinderApp: provider discovery

A shallow embedding of the two discovery surfaces of the application:

* `src/screens/MapScreen.js`: `fetchDoctors`, `calculateDistance`,
  `getDoctorsInRadius` (radius search around the user location);
* `src/screens/SearchScreen.js`: `filteredDoctors` (text, specialty and
  city filter), `handleSpecialtySelect`, `handleCitySelect` (selection of a
  facet value) and `uniqueCities` (the city facet index).

JavaScript numbers are read as elements of a linearly ordered field `α`;
the functions of the `Math` object are passed as a `JSMath α`, so every
definition below is an ordinary computable function of its arguments.
The statements about distances are made at `α = ℝ` with `realMath`, the
reading of the arithmetic over the exact real numbers: the rounding of IEEE
doubles and the value NaN are not modelled.
-/

namespace DoctorFinder

/-! ## Data model -/

/-- The members of the JavaScript `Math` object used by `calculateDistance`. -/
structure JSMath (α : Type) where
  /-- The constant `Math.PI`. -/
  PI : α
  /-- The function `Math.sin`. -/
  sin : α → α
  /-- The function `Math.cos`. -/
  cos : α → α
  /-- The function `Math.sqrt`. -/
  sqrt : α → α
  /-- The function `Math.atan2(y, x)`. -/
  atan2 : α → α → α

/-- The `Math` object read over the real numbers. `Math.atan2(y, x)` is the
angle in `(-π, π]` of the point `(x, y)`, that is the argument of `x + y i`.
`Math.sqrt` is the real square root on its domain `[0, ∞)`. The values are
exact: a result that the doubles round, and a square root of a negative
argument, which is NaN in JavaScript, have no counterpart here. -/
noncomputable def realMath : JSMath ℝ where
  PI := Real.pi
  sin := Real.sin
  cos := Real.cos
  sqrt := Real.sqrt
  atan2 := fun y x => Complex.arg ⟨x, y⟩

/-- The data of one document of the `doctors` collection, `doc.id` together
with `doc.data()`. Every field of the document data may be absent
(`undefined` in the source). `distanceKm` is not written by the
application; it stands for whatever the stored document holds under that
name, which the spread `...doc.data()` would copy. -/
structure DoctorDoc (α : Type) where
  id : String
  name : Option String
  specialty : Option String
  city : Option String
  latitude : Option α
  longitude : Option α
  distanceKm : Option α

/-- A pair `{ latitude, longitude }` in decimal degrees. -/
structure Coordinate (α : Type) where
  latitude : α
  longitude : α

/-- An element of `doctorsList` in `MapScreen.js`: the document fields
(`id: doc.id, ...doc.data()`) and the added `coordinate` object. -/
structure MapDoctor (α : Type) where
  doc : DoctorDoc α
  coordinate : Coordinate α

/-! ## MapScreen.js -/

section Map

variable {α : Type} [LinearOrderedField α]

/-- The expression `v || 0` for an optional number `v`: the value itself
when it is present and truthy (not zero), and `0` otherwise. -/
def orZero (v : Option α) : α :=
  match v with
  | some x => if x = 0 then 0 else x
  | none => 0

/-- The callback of `doctorsSnapshot.docs.map` in `fetchDoctors`
(`MapScreen.js`, lines 55-62). -/
def toMapDoctor (d : DoctorDoc α) : MapDoctor α :=
  { doc := d
    coordinate :=
      { latitude := orZero d.latitude
        longitude := orZero d.longitude } }

/-- The list `doctorsList` that `fetchDoctors` stores with `setDoctors`
(`MapScreen.js`, lines 51-70), for the documents of the snapshot. -/
def fetchDoctors (docs : List (DoctorDoc α)) : List (MapDoctor α) :=
  docs.map toMapDoctor

/-- The haversine term `a` of `calculateDistance` (`MapScreen.js`, lines
75-80). -/
def haversineA (M : JSMath α) (lat1 lon1 lat2 lon2 : α) : α :=
  let dLat := (lat2 - lat1) * (M.PI / 180)
  let dLon := (lon2 - lon1) * (M.PI / 180)
  M.sin (dLat / 2) * M.sin (dLat / 2) +
    M.cos (lat1 * (M.PI / 180)) * M.cos (lat2 * (M.PI / 180)) *
    M.sin (dLon / 2) * M.sin (dLon / 2)

/-- The function `calculateDistance` (`MapScreen.js`, lines 73-84). -/
def calculateDistance (M : JSMath α) (lat1 lon1 lat2 lon2 : α) : α :=
  let R : α := 6371
  let a := haversineA M lat1 lon1 lat2 lon2
  let c := 2 * M.atan2 (M.sqrt a) (M.sqrt (1 - a))
  let distance := R * c
  distance

/-- The callback of `doctors.filter` in `getDoctorsInRadius`
(`MapScreen.js`, lines 90-98). -/
def inRadius (M : JSMath α) (userLocation : Coordinate α) (radius : α)
    (doctor : MapDoctor α) : Bool :=
  let distance := calculateDistance M userLocation.latitude userLocation.longitude
    doctor.coordinate.latitude doctor.coordinate.longitude
  decide (distance ≤ radius)

/-- The function `getDoctorsInRadius` (`MapScreen.js`, lines 87-99), with
the component state it reads (`userLocation`, `radius`, `doctors`) passed
as arguments. `userLocation` is `none` while the state is `null`. -/
def getDoctorsInRadius (M : JSMath α) (userLocation : Option (Coordinate α))
    (radius : α) (doctors : List (MapDoctor α)) : List (MapDoctor α) :=
  match userLocation with
  | none => []
  | some u => doctors.filter (inRadius M u radius)

/-- The initial value of the `radius` state, `useState(100)` (`MapScreen.js`,
line 17). -/
def initialRadius : α := 100

/-- The new radius set by the decrement button, `Math.max(10, radius - 10)`
(`MapScreen.js`, line 159). -/
def decreaseRadius (radius : α) : α :=
  max 10 (radius - 10)

/-- The new radius set by the increment button, `Math.min(200, radius + 10)`
(`MapScreen.js`, line 165). -/
def increaseRadius (radius : α) : α :=
  min 200 (radius + 10)

end Map

/-- A press of one of the two buttons of the radius control (`MapScreen.js`,
lines 157-168). -/
inductive RadiusPress where
  | decrement
  | increment

section MapRadius

variable {α : Type} [LinearOrderedField α]

/-- The `radius` state after one press of a button of the radius control. -/
def pressRadius (radius : α) (press : RadiusPress) : α :=
  match press with
  | RadiusPress.decrement => decreaseRadius radius
  | RadiusPress.increment => increaseRadius radius

/-- The `radius` state after a sequence of presses, starting from the
initial radius. -/
def radiusAfter (presses : List RadiusPress) : α :=
  presses.foldl pressRadius initialRadius

end MapRadius

/-! ## SearchScreen.js -/

section Search

variable {α : Type}

/-- Truthiness of an optional string read in a boolean position: `undefined`,
`null` and the empty string are falsy, every other string is truthy. -/
def truthy (s : Option String) : Bool :=
  match s with
  | some v => v != ""
  | none => false

/-- The method `String.prototype.includes`: `sub` occurs in `s` as a
contiguous run of characters. -/
def includes (s sub : String) : Bool :=
  decide (sub.data <:+: s.data)

/-- The operator `===` between a field of a record (absent fields read as
`undefined`) and a selection (`null` when nothing is selected): two strings
are compared for equality, and `undefined` never equals `null` or a
string. -/
def strictEq (field selected : Option String) : Bool :=
  match field, selected with
  | some a, some b => a == b
  | _, _ => false

/-- The constant `matchesSearch` of the filter callback (`SearchScreen.js`,
line 75), as a boolean. `toLowerCase` is `String.prototype.toLowerCase`. -/
def matchesSearch (toLowerCase : String → String) (searchQuery : String)
    (doctor : DoctorDoc α) : Bool :=
  match doctor.name with
  | some n => n != "" && includes (toLowerCase n) (toLowerCase searchQuery)
  | none => false

/-- The constant `matchesSpecialty` of the filter callback
(`SearchScreen.js`, line 76). -/
def matchesSpecialty (selectedSpecialty : Option String) (doctor : DoctorDoc α) : Bool :=
  !truthy selectedSpecialty || strictEq doctor.specialty selectedSpecialty

/-- The constant `matchesCity` of the filter callback (`SearchScreen.js`,
line 77). -/
def matchesCity (selectedCity : Option String) (doctor : DoctorDoc α) : Bool :=
  !truthy selectedCity || strictEq doctor.city selectedCity

/-- The callback of `doctors.filter` in `filteredDoctors` (`SearchScreen.js`,
lines 74-79). -/
def matchesFilters (toLowerCase : String → String) (searchQuery : String)
    (selectedSpecialty selectedCity : Option String) (doctor : DoctorDoc α) : Bool :=
  matchesSearch toLowerCase searchQuery doctor &&
    matchesSpecialty selectedSpecialty doctor && matchesCity selectedCity doctor

/-- The list `filteredDoctors` (`SearchScreen.js`, lines 74-79), with the
component state it reads passed as arguments. -/
def filteredDoctors (toLowerCase : String → String) (doctors : List (DoctorDoc α))
    (searchQuery : String) (selectedSpecialty selectedCity : Option String) :
    List (DoctorDoc α) :=
  doctors.filter (matchesFilters toLowerCase searchQuery selectedSpecialty selectedCity)

/-- Lowercasing of the letters `A` to `Z`, character by character. On
strings of ASCII characters this is what `String.prototype.toLowerCase`
returns. -/
def asciiLowerCase (s : String) : String :=
  String.mk (s.data.map Char.toLower)

/-- The state of `SearchScreen` that the filter reads (`SearchScreen.js`,
lines 26-28): `searchQuery`, `selectedSpecialty` and `selectedCity`. A
selection is `none` while the state is `null`. -/
structure SearchScreenState where
  searchQuery : String
  selectedSpecialty : Option String
  selectedCity : Option String

/-- The state of `SearchScreen` when the screen is activated: the
arguments of the three `useState` calls. -/
def initialState : SearchScreenState :=
  { searchQuery := ""
    selectedSpecialty := none
    selectedCity := none }

/-- The function `handleSpecialtySelect` (`SearchScreen.js`, lines 82-88),
as a transition of the state. The test `selectedSpecialty === specialty`
holds when the selection is the string `specialty`, and fails when the
selection is `null`. -/
def handleSpecialtySelect (s : SearchScreenState) (specialty : String) : SearchScreenState :=
  if s.selectedSpecialty = some specialty then
    { s with selectedSpecialty := none }
  else
    { s with selectedSpecialty := some specialty }

/-- The function `handleCitySelect` (`SearchScreen.js`, lines 91-97), as a
transition of the state. -/
def handleCitySelect (s : SearchScreenState) (city : String) : SearchScreenState :=
  if s.selectedCity = some city then
    { s with selectedCity := none }
  else
    { s with selectedCity := some city }

/-- The list `filteredDoctors` for the corpus `doctors` in the state `s`. -/
def filteredDoctorsIn (toLowerCase : String → String) (doctors : List (DoctorDoc α))
    (s : SearchScreenState) : List (DoctorDoc α) :=
  filteredDoctors toLowerCase doctors s.searchQuery s.selectedSpecialty s.selectedCity

/-- The method `Set.prototype.add` on a set kept as the list of its members
in insertion order: a value already in the set leaves it unchanged, a new
value is appended. -/
def setAdd {β : Type} [DecidableEq β] (members : List β) (value : β) : List β :=
  if value ∈ members then members else members ++ [value]

/-- The expression `[...new Set(values)]`: the values are added to an empty
set one after the other, and the members are listed in insertion order. -/
def newSet {β : Type} [DecidableEq β] (values : List β) : List β :=
  values.foldl setAdd []

/-- The constant `uniqueCities` of `fetchDoctors` (`SearchScreen.js`, lines
42-44). A value is the `city` field of a document, `none` when the field is
absent. -/
def uniqueCities (doctorsList : List (DoctorDoc α)) : List (Option String) :=
  newSet ((doctorsList.filter fun doc => truthy doc.city).map fun doc => doc.city)

/-- The record `doctor` with its name replaced by the lowercased name. -/
def withLowerCaseName (toLowerCase : String → String) (doctor : DoctorDoc α) : DoctorDoc α :=
  { doctor with name := doctor.name.map toLowerCase }

/-- The text of the results line (`SearchScreen.js`, lines 185-187) for a
result list of length `n`: the count, then `Doctor` when the count is 1 and
`Doctors` otherwise, then `Found`. -/
def resultsText (n : Nat) : String :=
  toString n ++ " " ++ (if n = 1 then "Doctor" else "Doctors") ++ " Found"

end Search

/-! ## The specification's reading of the contracts -/

/-- The haversine great-circle distance with Earth radius 6371 km, as the
specification words it: `6371 * 2 * arcsin (sqrt h)` with
`h = sin² (dLat / 2) + cos lat1 * cos lat2 * sin² (dLon / 2)`, every angle
being the degree input multiplied by `π / 180`. -/
noncomputable def haversineSpec (lat1 lon1 lat2 lon2 : ℝ) : ℝ :=
  let φ1 := lat1 * (Real.pi / 180)
  let φ2 := lat2 * (Real.pi / 180)
  let l1 := lon1 * (Real.pi / 180)
  let l2 := lon2 * (Real.pi / 180)
  let h := Real.sin ((φ2 - φ1) / 2) ^ 2 + Real.cos φ1 * Real.cos φ2 * Real.sin ((l2 - l1) / 2) ^ 2
  6371 * 2 * Real.arcsin (Real.sqrt h)

/-- The facet filter contract as the specification words it: the text
predicate holds when the query is empty or the record has a name whose
lowercased form contains the lowercased query; a facet predicate holds when
the facet is unset or the record's field equals the selection. -/
def specFacetFilter {α : Type} (toLowerCase : String → String) (textQuery : String)
    (specialty city : Option String) (r : DoctorDoc α) : Prop :=
  (textQuery = "" ∨ ∃ n, r.name = some n ∧ (toLowerCase textQuery).data <:+: (toLowerCase n).data) ∧
  (specialty = none ∨ r.specialty = specialty) ∧
  (city = none ∨ r.city = city)

/-! ## Sample documents -/

/-- A document of the `doctors` collection with the given name, specialty
and city, the given latitude and longitude, and no `distanceKm` field. -/
def docWith {α : Type} (name specialty city : Option String)
    (latitude longitude : Option α) : DoctorDoc α :=
  { id := "doc1"
    name := name
    specialty := specialty
    city := city
    latitude := latitude
    longitude := longitude
    distanceKm := none }

/-! ## Lemmas on lists and on the record builders -/

theorem orZero_some {α : Type} [LinearOrderedField α] (x : α) : orZero (some x) = x := by
  by_cases h : x = 0
  · simp [orZero, h]
  · simp [orZero, h]

theorem toMapDoctor_injective {α : Type} [LinearOrderedField α] :
    Function.Injective (toMapDoctor : DoctorDoc α → MapDoctor α) := by
  intro a b h
  exact congrArg MapDoctor.doc h

theorem mem_getDoctorsInRadius {α : Type} [LinearOrderedField α] (M : JSMath α)
    (u : Coordinate α) (radius : α) (docs : List (DoctorDoc α)) (d : DoctorDoc α) :
    toMapDoctor d ∈ getDoctorsInRadius M (some u) radius (fetchDoctors docs) ↔
      d ∈ docs ∧ calculateDistance M u.latitude u.longitude
        (orZero d.latitude) (orZero d.longitude) ≤ radius := by
  simp [getDoctorsInRadius, fetchDoctors, List.mem_filter, inRadius,
    toMapDoctor_injective.eq_iff]
  intro _
  rfl

theorem getDoctorsInRadius_fetch_eq {α : Type} [LinearOrderedField α] (M : JSMath α)
    (u : Coordinate α) (radius : α) (docs : List (DoctorDoc α)) :
    getDoctorsInRadius M (some u) radius (fetchDoctors docs) =
      (docs.filter fun d => inRadius M u radius (toMapDoctor d)).map toMapDoctor := by
  simp only [getDoctorsInRadius, fetchDoctors, List.filter_map]
  rfl

/-! ## Lemmas on the distance over the reals -/

theorem haversineA_self (lat lon : ℝ) : haversineA realMath lat lon lat lon = 0 := by
  simp [haversineA, realMath]

theorem calculateDistance_of_haversineA_zero (lat1 lon1 lat2 lon2 : ℝ)
    (h : haversineA realMath lat1 lon1 lat2 lon2 = 0) :
    calculateDistance realMath lat1 lon1 lat2 lon2 = 0 := by
  have h1 : (⟨1, 0⟩ : ℂ) = 1 := rfl
  simp only [calculateDistance, h]
  simp [realMath, h1]

theorem haversineA_comm (lat1 lon1 lat2 lon2 : ℝ) :
    haversineA realMath lat1 lon1 lat2 lon2 = haversineA realMath lat2 lon2 lat1 lon1 := by
  simp only [haversineA, realMath]
  have e1 : (lat1 - lat2) * (Real.pi / 180) / 2 = -((lat2 - lat1) * (Real.pi / 180) / 2) := by
    ring
  have e2 : (lon1 - lon2) * (Real.pi / 180) / 2 = -((lon2 - lon1) * (Real.pi / 180) / 2) := by
    ring
  rw [e1, e2, Real.sin_neg, Real.sin_neg]
  ring

theorem haversineA_mem_unit (lat1 lon1 lat2 lon2 : ℝ) :
    0 ≤ haversineA realMath lat1 lon1 lat2 lon2 ∧ haversineA realMath lat1 lon1 lat2 lon2 ≤ 1 := by
  simp only [haversineA, realMath]
  set x := lat1 * (Real.pi / 180) with hx
  set y := lat2 * (Real.pi / 180) with hy
  have hd : (lat2 - lat1) * (Real.pi / 180) / 2 = (y - x) / 2 := by
    rw [hx, hy]
    ring
  rw [hd]
  set s := Real.sin ((y - x) / 2) with hs
  set t := Real.sin ((lon2 - lon1) * (Real.pi / 180) / 2) with ht
  -- `s ^ 2 = (1 - cos (y - x)) / 2`
  have hs2 : s ^ 2 = 1 / 2 - (Real.cos y * Real.cos x + Real.sin y * Real.sin x) / 2 := by
    have h1 := Real.sin_sq_eq_half_sub ((y - x) / 2)
    have h2 : 2 * ((y - x) / 2) = y - x := by ring
    rw [h2, Real.cos_sub] at h1
    exact h1
  -- `s ^ 2 + cos x * cos y = (1 + cos (y + x)) / 2`
  have hsum : Real.cos (y + x) = Real.cos y * Real.cos x - Real.sin y * Real.sin x :=
    Real.cos_add y x
  have hdiff : Real.cos (y - x) = Real.cos y * Real.cos x + Real.sin y * Real.sin x :=
    Real.cos_sub y x
  have c1 := Real.cos_le_one (y + x)
  have c2 := Real.neg_one_le_cos (y + x)
  have c3 := Real.cos_le_one (y - x)
  have c4 := Real.neg_one_le_cos (y - x)
  have t0 : 0 ≤ t ^ 2 := sq_nonneg t
  have t1 : t ^ 2 ≤ 1 := Real.sin_sq_le_one _
  set C := Real.cos x * Real.cos y with hC
  have lo : 0 ≤ s ^ 2 := sq_nonneg s
  have hi : s ^ 2 ≤ 1 := Real.sin_sq_le_one _
  have lo2 : 0 ≤ s ^ 2 + C := by rw [hs2, hC]; linarith
  have hi2 : s ^ 2 + C ≤ 1 := by rw [hs2, hC]; linarith
  have e : s * s + C * t * t = (1 - t ^ 2) * s ^ 2 + t ^ 2 * (s ^ 2 + C) := by ring
  rw [e]
  constructor
  · have := mul_nonneg (sub_nonneg.mpr t1) lo
    have := mul_nonneg t0 lo2
    linarith
  · have := mul_nonneg (sub_nonneg.mpr t1) (sub_nonneg.mpr hi)
    have := mul_nonneg t0 (sub_nonneg.mpr hi2)
    nlinarith

theorem atan2_sqrt_eq_arcsin (a : ℝ) (h0 : 0 ≤ a) (h1 : a ≤ 1) :
    realMath.atan2 (realMath.sqrt a) (realMath.sqrt (1 - a)) = Real.arcsin (Real.sqrt a) := by
  simp only [realMath]
  have hre : 0 ≤ (⟨Real.sqrt (1 - a), Real.sqrt a⟩ : ℂ).re := Real.sqrt_nonneg _
  rw [Complex.arg_of_re_nonneg hre, Complex.abs_apply, Complex.normSq_mk,
    Real.mul_self_sqrt (sub_nonneg.mpr h1), Real.mul_self_sqrt h0]
  simp

theorem calculateDistance_eq_haversineSpec (lat1 lon1 lat2 lon2 : ℝ) :
    calculateDistance realMath lat1 lon1 lat2 lon2 = haversineSpec lat1 lon1 lat2 lon2 := by
  obtain ⟨h0, h1⟩ := haversineA_mem_unit lat1 lon1 lat2 lon2
  simp only [calculateDistance]
  rw [atan2_sqrt_eq_arcsin _ h0 h1]
  simp only [haversineA, realMath, haversineSpec]
  have e1 : (lat2 * (Real.pi / 180) - lat1 * (Real.pi / 180)) / 2 =
      (lat2 - lat1) * (Real.pi / 180) / 2 := by ring
  have e2 : (lon2 * (Real.pi / 180) - lon1 * (Real.pi / 180)) / 2 =
      (lon2 - lon1) * (Real.pi / 180) / 2 := by ring
  rw [e1, e2]
  ring_nf

theorem orZero_eq_getD {α : Type} [LinearOrderedField α] (v : Option α) :
    orZero v = v.getD 0 := by
  cases v with
  | none => rfl
  | some x => simp [orZero_some]

theorem filter_sublist_of_imp {β : Type} (p q : β → Bool) (l : List β)
    (h : ∀ a, p a = true → q a = true) : List.Sublist (l.filter p) (l.filter q) := by
  induction l with
  | nil => simp
  | cons a l ih =>
    by_cases hp : p a = true
    · simp [List.filter_cons, hp, h a hp, ih]
    · by_cases hq : q a = true
      · simp only [List.filter_cons, hp, hq, if_true, if_false]
        exact List.Sublist.cons a ih
      · simp [List.filter_cons, hp, hq, ih]

theorem strictEq_iff_of_truthy (field selected : Option String)
    (h : truthy selected = true) : strictEq field selected = true ↔ field = selected := by
  cases selected with
  | none => simp [truthy] at h
  | some b =>
    cases field with
    | none => simp [strictEq]
    | some a => simp [strictEq]

theorem not_truthy_iff (s : Option String) : truthy s = false ↔ s = none ∨ s = some "" := by
  cases s with
  | none => simp [truthy]
  | some v => simp [truthy]

theorem facet_pass_iff (field selected : Option String) :
    (!truthy selected || strictEq field selected) = true ↔
      selected = none ∨ selected = some "" ∨ field = selected := by
  by_cases h : truthy selected = true
  · have hn : ¬ (selected = none ∨ selected = some "") := by
      intro hc
      rw [(not_truthy_iff selected).mpr hc] at h
      exact Bool.false_ne_true h
    rw [h]
    simp only [Bool.not_true, Bool.false_or]
    rw [strictEq_iff_of_truthy _ _ h]
    constructor
    · intro hf
      exact Or.inr (Or.inr hf)
    · rintro (h1 | h1 | h1)
      · exact absurd (Or.inl h1) hn
      · exact absurd (Or.inr h1) hn
      · exact h1
  · have hf : truthy selected = false := by simpa using h
    rw [hf]
    simp only [Bool.not_false, Bool.true_or, true_iff]
    rcases (not_truthy_iff selected).mp hf with h1 | h1
    · exact Or.inl h1
    · exact Or.inr (Or.inl h1)

theorem matchesSearch_iff {α : Type} (toLowerCase : String → String) (q : String)
    (d : DoctorDoc α) :
    matchesSearch toLowerCase q d = true ↔
      ∃ n, d.name = some n ∧ n ≠ "" ∧ (toLowerCase q).data <:+: (toLowerCase n).data := by
  unfold matchesSearch
  cases hn : d.name with
  | none => simp
  | some n => simp [includes]

theorem distance_origin_origin : calculateDistance realMath 0 0 0 0 = 0 :=
  calculateDistance_of_haversineA_zero 0 0 0 0 (haversineA_self 0 0)

theorem distance_full_turn : calculateDistance realMath 0 0 0 360 = 0 := by
  apply calculateDistance_of_haversineA_zero
  have e : (360 : ℝ) * (Real.pi / 180) / 2 = Real.pi := by ring
  simp [haversineA, realMath, e]

/-! ## Radius search: records without coordinates (C1) -/

/-- C1, as stated, fails: a document with neither latitude nor longitude is
given the coordinate `(0, 0)` by `fetchDoctors`, and it appears in the
result of `getDoctorsInRadius` at the maximum radius 200 when the reference
location is `(0, 0)`. -/
theorem absent_coordinates_included_near_origin :
    (docWith (some "Alice Smith") none none none none : DoctorDoc ℝ).latitude = none ∧
    (docWith (some "Alice Smith") none none none none : DoctorDoc ℝ).longitude = none ∧
    toMapDoctor (docWith (some "Alice Smith") none none none none) ∈
      getDoctorsInRadius realMath (some ⟨0, 0⟩) 200
        (fetchDoctors [docWith (some "Alice Smith") none none none none]) := by
  refine ⟨rfl, rfl, ?_⟩
  rw [mem_getDoctorsInRadius]
  refine ⟨List.mem_singleton.mpr rfl, ?_⟩
  show calculateDistance realMath 0 0 0 0 ≤ 200
  rw [distance_origin_origin]
  norm_num

/-- C1, amended: `fetchDoctors` replaces an absent latitude or longitude by
`0`, and a record of the corpus is in the result of `getDoctorsInRadius`
exactly when `calculateDistance` from the reference location to that
coordinate is at most the radius. A record without coordinates is therefore
excluded exactly when the reference location is farther than the radius
from the defaulted coordinate. -/
theorem absent_coordinate_defaults_to_zero {α : Type} [LinearOrderedField α]
    (M : JSMath α) (u : Coordinate α) (radius : α) (docs : List (DoctorDoc α))
    (d : DoctorDoc α) (hd : d ∈ docs) :
    (d.latitude = none → (toMapDoctor d).coordinate.latitude = 0) ∧
    (d.longitude = none → (toMapDoctor d).coordinate.longitude = 0) ∧
    (toMapDoctor d ∈ getDoctorsInRadius M (some u) radius (fetchDoctors docs) ↔
      calculateDistance M u.latitude u.longitude (toMapDoctor d).coordinate.latitude
        (toMapDoctor d).coordinate.longitude ≤ radius) := by
  refine ⟨?_, ?_, ?_⟩
  · intro h
    simp [toMapDoctor, h, orZero]
  · intro h
    simp [toMapDoctor, h, orZero]
  · rw [mem_getDoctorsInRadius]
    exact ⟨fun h => h.2, fun h => ⟨hd, h⟩⟩

/-- C1, amended, at a corpus of one document without coordinates, the
reference location `(0, 0)` and radius 200. -/
theorem absent_coordinate_defaults_to_zero_witness :
    (docWith none none none none none : DoctorDoc ℝ) ∈ [docWith none none none none none] ∧
    (toMapDoctor (docWith none none none none none : DoctorDoc ℝ) ∈
        getDoctorsInRadius realMath (some ⟨0, 0⟩) 200
          (fetchDoctors [docWith none none none none none]) ↔
      calculateDistance realMath 0 0
        (toMapDoctor (docWith none none none none none : DoctorDoc ℝ)).coordinate.latitude
        (toMapDoctor (docWith none none none none none : DoctorDoc ℝ)).coordinate.longitude
          ≤ 200) :=
  ⟨List.mem_singleton.mpr rfl,
    (absent_coordinate_defaults_to_zero realMath ⟨0, 0⟩ 200 [docWith none none none none none]
      (docWith none none none none none) (List.mem_singleton.mpr rfl)).2.2⟩

/-! ## Faceted search: the filter predicate (C2) -/

/-- C2, as stated, fails: with an empty text query and no facet selected the
specification's predicate admits a record that has no name, and the filter
callback of `filteredDoctors` rejects it. -/
theorem nameless_record_rejected_on_empty_query :
    specFacetFilter asciiLowerCase "" none none
        (docWith none (some "Cardiology") (some "Gaborone") none none : DoctorDoc ℝ) ∧
    matchesFilters asciiLowerCase "" none none
        (docWith none (some "Cardiology") (some "Gaborone") none none : DoctorDoc ℝ) = false :=
  ⟨⟨Or.inl rfl, Or.inl rfl, Or.inl rfl⟩, rfl⟩

/-- C2, amended: the filter callback of `filteredDoctors` admits a record
exactly when the record has a non-empty name whose lowercased form contains
the lowercased text query, and the specialty selection is unset (`null` or
the empty string) or equal to the record's specialty, and the city
selection is unset (`null` or the empty string) or equal to the record's
city; `filteredDoctors` holds the records of the corpus that the callback
admits. -/
theorem matchesFilters_iff {α : Type} (toLowerCase : String → String) (searchQuery : String)
    (selectedSpecialty selectedCity : Option String) (doctors : List (DoctorDoc α))
    (d : DoctorDoc α) :
    (matchesFilters toLowerCase searchQuery selectedSpecialty selectedCity d = true ↔
      (∃ n, d.name = some n ∧ n ≠ "" ∧
        (toLowerCase searchQuery).data <:+: (toLowerCase n).data) ∧
      (selectedSpecialty = none ∨ selectedSpecialty = some "" ∨
        d.specialty = selectedSpecialty) ∧
      (selectedCity = none ∨ selectedCity = some "" ∨ d.city = selectedCity)) ∧
    (d ∈ filteredDoctors toLowerCase doctors searchQuery selectedSpecialty selectedCity ↔
      d ∈ doctors ∧
        matchesFilters toLowerCase searchQuery selectedSpecialty selectedCity d = true) := by
  constructor
  · unfold matchesFilters matchesSpecialty matchesCity
    rw [Bool.and_eq_true, Bool.and_eq_true, matchesSearch_iff, facet_pass_iff, facet_pass_iff,
      and_assoc]
  · simp [filteredDoctors, List.mem_filter]

/-! ## Radius search: the inclusion test (C3) -/

/-- C3: for a record of the corpus whose latitude and longitude are both
present, the record is in the result of `getDoctorsInRadius` if and only if
`calculateDistance` from the reference location to the record is at most
the radius. The bound is inclusive: a record at distance exactly the radius
is included, and so is a record located at the reference point whenever the
radius is not negative. -/
theorem getDoctorsInRadius_mem_iff_distance_le (docs : List (DoctorDoc ℝ))
    (u : Coordinate ℝ) (radius : ℝ) (d : DoctorDoc ℝ) (la lo : ℝ) (hd : d ∈ docs)
    (hla : d.latitude = some la) (hlo : d.longitude = some lo) :
    (toMapDoctor d ∈ getDoctorsInRadius realMath (some u) radius (fetchDoctors docs) ↔
      calculateDistance realMath u.latitude u.longitude la lo ≤ radius) ∧
    (calculateDistance realMath u.latitude u.longitude la lo = radius →
      toMapDoctor d ∈ getDoctorsInRadius realMath (some u) radius (fetchDoctors docs)) ∧
    (la = u.latitude → lo = u.longitude → 0 ≤ radius →
      toMapDoctor d ∈ getDoctorsInRadius realMath (some u) radius (fetchDoctors docs)) := by
  have key : toMapDoctor d ∈ getDoctorsInRadius realMath (some u) radius (fetchDoctors docs) ↔
      calculateDistance realMath u.latitude u.longitude la lo ≤ radius := by
    rw [mem_getDoctorsInRadius, hla, hlo, orZero_some, orZero_some]
    exact ⟨fun h => h.2, fun h => ⟨hd, h⟩⟩
  refine ⟨key, fun h => key.mpr (le_of_eq h), ?_⟩
  intro h1 h2 hr
  apply key.mpr
  rw [h1, h2, calculateDistance_of_haversineA_zero _ _ _ _ (haversineA_self _ _)]
  exact hr

/-- C3 at a corpus of one document located at `(0, 0)`, the reference
location `(0, 0)` and radius 10. -/
theorem getDoctorsInRadius_mem_iff_distance_le_witness :
    toMapDoctor (docWith none none none (some 0) (some 0) : DoctorDoc ℝ) ∈
      getDoctorsInRadius realMath (some ⟨0, 0⟩) 10
        (fetchDoctors [docWith none none none (some 0) (some 0)]) :=
  (getDoctorsInRadius_mem_iff_distance_le [docWith none none none (some 0) (some 0)] ⟨0, 0⟩ 10
    (docWith none none none (some 0) (some 0)) 0 0 (List.mem_singleton.mpr rfl) rfl rfl).2.2
    rfl rfl (by norm_num)

/-! ## The distance calculator (C4, C5, C6) -/

/-- C4: for latitudes in `[-90, 90]` and longitudes in `[-180, 180]`,
`calculateDistance`, read over the real numbers, is the haversine
great-circle distance with Earth radius 6371 km,
`6371 * 2 * arcsin (sqrt h)` with
`h = sin² (dLat / 2) + cos lat1 * cos lat2 * sin² (dLon / 2)`, every angle
being the degree input multiplied by `π / 180`. -/
theorem calculateDistance_eq_haversine (lat1 lon1 lat2 lon2 : ℝ)
    (_h1 : -90 ≤ lat1 ∧ lat1 ≤ 90) (_h2 : -180 ≤ lon1 ∧ lon1 ≤ 180)
    (_h3 : -90 ≤ lat2 ∧ lat2 ≤ 90) (_h4 : -180 ≤ lon2 ∧ lon2 ≤ 180) :
    calculateDistance realMath lat1 lon1 lat2 lon2 =
      6371 * 2 * Real.arcsin (Real.sqrt
        (Real.sin ((lat2 * (Real.pi / 180) - lat1 * (Real.pi / 180)) / 2) ^ 2 +
          Real.cos (lat1 * (Real.pi / 180)) * Real.cos (lat2 * (Real.pi / 180)) *
            Real.sin ((lon2 * (Real.pi / 180) - lon1 * (Real.pi / 180)) / 2) ^ 2)) ∧
    calculateDistance realMath lat1 lon1 lat2 lon2 = haversineSpec lat1 lon1 lat2 lon2 := by
  exact ⟨calculateDistance_eq_haversineSpec lat1 lon1 lat2 lon2,
    calculateDistance_eq_haversineSpec lat1 lon1 lat2 lon2⟩

/-- C4 at the coordinates `(-24, 25)` and `(-21, 27)`. -/
theorem calculateDistance_eq_haversine_witness :
    calculateDistance realMath (-24) 25 (-21) 27 = haversineSpec (-24) 25 (-21) 27 :=
  (calculateDistance_eq_haversine (-24) 25 (-21) 27 (by norm_num) (by norm_num)
    (by norm_num) (by norm_num)).2

/-- C5: `calculateDistance` is symmetric in its two coordinates. -/
theorem calculateDistance_symm (lat1 lon1 lat2 lon2 : ℝ) :
    calculateDistance realMath lat1 lon1 lat2 lon2 =
      calculateDistance realMath lat2 lon2 lat1 lon1 := by
  simp only [calculateDistance, haversineA_comm lat1 lon1 lat2 lon2]

/-- C6: the distance from a coordinate to itself is `0`. -/
theorem calculateDistance_self (lat lon : ℝ) :
    calculateDistance realMath lat lon lat lon = 0 :=
  calculateDistance_of_haversineA_zero lat lon lat lon (haversineA_self lat lon)

/-! ## Radius search: monotonicity in the radius (C7) -/

/-- C7: for every corpus and every reference location, when `r1 ≤ r2` the
result of `getDoctorsInRadius` at radius `r1` is a sublist of the result at
radius `r2`, so every record of the first is a record of the second. -/
theorem getDoctorsInRadius_mono {α : Type} [LinearOrderedField α] (M : JSMath α)
    (userLocation : Option (Coordinate α)) (doctors : List (MapDoctor α)) (r1 r2 : α)
    (h : r1 ≤ r2) :
    List.Sublist (getDoctorsInRadius M userLocation r1 doctors)
        (getDoctorsInRadius M userLocation r2 doctors) ∧
      ∀ m, m ∈ getDoctorsInRadius M userLocation r1 doctors →
        m ∈ getDoctorsInRadius M userLocation r2 doctors := by
  have hsub : List.Sublist (getDoctorsInRadius M userLocation r1 doctors)
      (getDoctorsInRadius M userLocation r2 doctors) := by
    cases userLocation with
    | none => exact List.Sublist.refl _
    | some u =>
      apply filter_sublist_of_imp
      intro m hm
      simp only [inRadius, decide_eq_true_eq] at hm ⊢
      exact le_trans hm h
  exact ⟨hsub, fun m hm => hsub.subset hm⟩

/-- C7 at a corpus of one document located at `(0, 0)`, the reference
location `(0, 0)` and the radii 10 and 200. -/
theorem getDoctorsInRadius_mono_witness :
    List.Sublist
      (getDoctorsInRadius realMath (some ⟨0, 0⟩) 10
        (fetchDoctors [docWith none none none (some 0) (some 0)]))
      (getDoctorsInRadius realMath (some ⟨0, 0⟩) 200
        (fetchDoctors [docWith none none none (some 0) (some 0)])) :=
  (getDoctorsInRadius_mono realMath (some ⟨0, 0⟩)
    (fetchDoctors [docWith none none none (some 0) (some 0)]) 10 200 (by norm_num)).1

/-! ## Faceted search: the filter is a conjunction (C8) -/

/-- C8: for every corpus and filter state, the faceted result with a
specialty selected, with a city selected, or with a text query is a sublist
of the faceted result for the same state with that one facet cleared, so its
length is not larger. The lowercasing function is assumed to send the empty
string to the empty string, as `String.prototype.toLowerCase` does. -/
theorem filteredDoctors_facet_sublist {α : Type} (toLowerCase : String → String)
    (hlow : toLowerCase "" = "") (doctors : List (DoctorDoc α)) (searchQuery : String)
    (selectedSpecialty selectedCity : Option String) :
    (List.Sublist
        (filteredDoctors toLowerCase doctors searchQuery selectedSpecialty selectedCity)
        (filteredDoctors toLowerCase doctors searchQuery none selectedCity) ∧
      List.Sublist
        (filteredDoctors toLowerCase doctors searchQuery selectedSpecialty selectedCity)
        (filteredDoctors toLowerCase doctors searchQuery selectedSpecialty none) ∧
      List.Sublist
        (filteredDoctors toLowerCase doctors searchQuery selectedSpecialty selectedCity)
        (filteredDoctors toLowerCase doctors "" selectedSpecialty selectedCity)) ∧
    (filteredDoctors toLowerCase doctors searchQuery selectedSpecialty selectedCity).length ≤
        (filteredDoctors toLowerCase doctors searchQuery none selectedCity).length ∧
    (filteredDoctors toLowerCase doctors searchQuery selectedSpecialty selectedCity).length ≤
        (filteredDoctors toLowerCase doctors searchQuery selectedSpecialty none).length ∧
    (filteredDoctors toLowerCase doctors searchQuery selectedSpecialty selectedCity).length ≤
        (filteredDoctors toLowerCase doctors "" selectedSpecialty selectedCity).length := by
  have hs : List.Sublist
      (filteredDoctors toLowerCase doctors searchQuery selectedSpecialty selectedCity)
      (filteredDoctors toLowerCase doctors searchQuery none selectedCity) := by
    apply filter_sublist_of_imp
    intro d hd
    simp only [matchesFilters, Bool.and_eq_true] at hd ⊢
    exact ⟨⟨hd.1.1, by simp [matchesSpecialty, truthy]⟩, hd.2⟩
  have hc : List.Sublist
      (filteredDoctors toLowerCase doctors searchQuery selectedSpecialty selectedCity)
      (filteredDoctors toLowerCase doctors searchQuery selectedSpecialty none) := by
    apply filter_sublist_of_imp
    intro d hd
    simp only [matchesFilters, Bool.and_eq_true] at hd ⊢
    exact ⟨hd.1, by simp [matchesCity, truthy]⟩
  have hq : List.Sublist
      (filteredDoctors toLowerCase doctors searchQuery selectedSpecialty selectedCity)
      (filteredDoctors toLowerCase doctors "" selectedSpecialty selectedCity) := by
    apply filter_sublist_of_imp
    intro d hd
    simp only [matchesFilters, Bool.and_eq_true] at hd ⊢
    refine ⟨⟨?_, hd.1.2⟩, hd.2⟩
    obtain ⟨n, hn, hne, _⟩ := (matchesSearch_iff toLowerCase searchQuery d).mp hd.1.1
    apply (matchesSearch_iff toLowerCase "" d).mpr
    refine ⟨n, hn, hne, ?_⟩
    rw [hlow]
    exact List.nil_infix
  exact ⟨⟨hs, hc, hq⟩, hs.length_le, hc.length_le, hq.length_le⟩

/-- C8 at the lowercasing of ASCII letters, a corpus of two documents, the
text query `bob`, the specialty `Dermatology` and the city `Francistown`. -/
theorem filteredDoctors_facet_sublist_witness :
    asciiLowerCase "" = "" ∧
    (filteredDoctors asciiLowerCase
        [(docWith (some "Alice Smith") (some "Cardiology") (some "Gaborone") none none :
            DoctorDoc ℝ),
          docWith (some "Bob Jones") (some "Dermatology") (some "Francistown") none none]
        "bob" (some "Dermatology") (some "Francistown")).length ≤
      (filteredDoctors asciiLowerCase
        [(docWith (some "Alice Smith") (some "Cardiology") (some "Gaborone") none none :
            DoctorDoc ℝ),
          docWith (some "Bob Jones") (some "Dermatology") (some "Francistown") none none]
        "bob" none (some "Francistown")).length :=
  ⟨rfl, (filteredDoctors_facet_sublist asciiLowerCase rfl _ "bob" (some "Dermatology")
    (some "Francistown")).2.1⟩

/-! ## Radius search: coordinates outside the valid ranges (C9) -/

/-- C9, as stated, fails: a document with latitude 0 and longitude 360,
which is outside `[-180, 180]`, is in the result of `getDoctorsInRadius`
for the reference location `(0, 0)` and radius 10. -/
theorem out_of_range_longitude_included :
    (180 : ℝ) < 360 ∧
    toMapDoctor (docWith none none none (some 0) (some 360) : DoctorDoc ℝ) ∈
      getDoctorsInRadius realMath (some ⟨0, 0⟩) 10
        (fetchDoctors [docWith none none none (some 0) (some 360)]) := by
  refine ⟨by norm_num, ?_⟩
  rw [mem_getDoctorsInRadius]
  refine ⟨List.mem_singleton.mpr rfl, ?_⟩
  show calculateDistance realMath 0 0 (orZero (some 0)) (orZero (some 360)) ≤ 10
  rw [orZero_some, orZero_some, distance_full_turn]
  norm_num

/-- C9, amended: `getDoctorsInRadius` does not check coordinate ranges. A
record of the corpus whose latitude is outside `[-90, 90]` or whose
longitude is outside `[-180, 180]` keeps its stored coordinates, and it is
in the result exactly when `calculateDistance` from the reference location
to those coordinates is at most the radius. -/
theorem out_of_range_not_validated {α : Type} [LinearOrderedField α] (M : JSMath α)
    (u : Coordinate α) (radius : α) (docs : List (DoctorDoc α)) (d : DoctorDoc α)
    (la lo : α) (hd : d ∈ docs) (hla : d.latitude = some la) (hlo : d.longitude = some lo)
    (_hout : la < -90 ∨ 90 < la ∨ lo < -180 ∨ 180 < lo) :
    (toMapDoctor d).coordinate.latitude = la ∧
    (toMapDoctor d).coordinate.longitude = lo ∧
    (toMapDoctor d ∈ getDoctorsInRadius M (some u) radius (fetchDoctors docs) ↔
      calculateDistance M u.latitude u.longitude la lo ≤ radius) := by
  refine ⟨?_, ?_, ?_⟩
  · simp [toMapDoctor, hla, orZero_some]
  · simp [toMapDoctor, hlo, orZero_some]
  · rw [mem_getDoctorsInRadius, hla, hlo, orZero_some, orZero_some]
    exact ⟨fun h => h.2, fun h => ⟨hd, h⟩⟩

/-- C9, amended, at a corpus of one document with latitude 95 and longitude
20, the reference location `(0, 0)` and radius 200. -/
theorem out_of_range_not_validated_witness :
    (toMapDoctor (docWith none none none (some 95) (some 20) : DoctorDoc ℝ) ∈
        getDoctorsInRadius realMath (some ⟨0, 0⟩) 200
          (fetchDoctors [docWith none none none (some 95) (some 20)]) ↔
      calculateDistance realMath 0 0 95 20 ≤ 200) :=
  (out_of_range_not_validated realMath ⟨0, 0⟩ 200 [docWith none none none (some 95) (some 20)]
    (docWith none none none (some 95) (some 20)) 95 20 (List.mem_singleton.mpr rfl) rfl rfl
    (Or.inr (Or.inl (by norm_num)))).2.2

/-! ## Radius search: what the result records carry (C10) -/

/-- C10, as stated, fails: for a corpus of one document located at `(0, 0)`
that has no `distanceKm` field, the reference location `(0, 0)` and radius
10, the record is in the result of `getDoctorsInRadius` and has no
`distanceKm` value, so it does not carry the computed distance. -/
theorem result_record_has_no_distance :
    ∃ m, m ∈ getDoctorsInRadius realMath (some ⟨0, 0⟩) 10
        (fetchDoctors [(docWith none none none (some 0) (some 0) : DoctorDoc ℝ)]) ∧
      m.doc.distanceKm = none ∧
      m.doc.distanceKm ≠ some (calculateDistance realMath 0 0 m.coordinate.latitude
        m.coordinate.longitude) := by
  refine ⟨toMapDoctor (docWith none none none (some 0) (some 0)), ?_, rfl, ?_⟩
  · rw [mem_getDoctorsInRadius]
    refine ⟨List.mem_singleton.mpr rfl, ?_⟩
    show calculateDistance realMath 0 0 (orZero (some 0)) (orZero (some 0)) ≤ 10
    rw [orZero_some, distance_origin_origin]
    norm_num
  · intro h
    exact Option.noConfusion h

/-- C10, amended: `getDoctorsInRadius` computes the distance only to decide
membership. Its result is the list of the corpus records whose distance
from the reference location is at most the radius, each exactly as
`fetchDoctors` built it: the fields of the stored document, `distanceKm`
included, are unchanged, and no distance is attached. -/
theorem getDoctorsInRadius_returns_records_unchanged {α : Type} [LinearOrderedField α]
    (M : JSMath α) (u : Coordinate α) (radius : α) (docs : List (DoctorDoc α)) :
    getDoctorsInRadius M (some u) radius (fetchDoctors docs) =
      (docs.filter fun d => decide (calculateDistance M u.latitude u.longitude
        (toMapDoctor d).coordinate.latitude (toMapDoctor d).coordinate.longitude ≤ radius)).map
        toMapDoctor ∧
    (∀ d : DoctorDoc α, (toMapDoctor d).doc = d) ∧
    List.Sublist (getDoctorsInRadius M (some u) radius (fetchDoctors docs))
      (fetchDoctors docs) := by
  refine ⟨getDoctorsInRadius_fetch_eq M u radius docs, fun _ => rfl, ?_⟩
  exact List.filter_sublist _

/-! ## Faceted search: selecting and clearing a facet (C11, C12) -/

/-- C11: `handleSpecialtySelect` with the chip value `v` sets the specialty
selection to `null` when the current selection is `v`, and to `v` otherwise,
and leaves the text query and the city selection as they are;
`handleCitySelect` does the same on the city selection. -/
theorem handleSelect_toggles (s : SearchScreenState) (v : String) :
    ((handleSpecialtySelect s v).selectedSpecialty =
        if s.selectedSpecialty = some v then none else some v) ∧
    (handleSpecialtySelect s v).selectedCity = s.selectedCity ∧
    (handleSpecialtySelect s v).searchQuery = s.searchQuery ∧
    ((handleCitySelect s v).selectedCity =
        if s.selectedCity = some v then none else some v) ∧
    (handleCitySelect s v).selectedSpecialty = s.selectedSpecialty ∧
    (handleCitySelect s v).searchQuery = s.searchQuery := by
  unfold handleSpecialtySelect handleCitySelect
  refine ⟨?_, ?_, ?_, ?_, ?_, ?_⟩ <;> split_ifs <;> rfl

/-- C12: from a state whose specialty selection is unset, selecting `v` and
then `v` again gives back the same state, with the specialty unset, and the
faceted result afterwards is the faceted result before, for every corpus,
text query and city selection; the same holds for the city selection. -/
theorem double_toggle_restores {α : Type} (toLowerCase : String → String)
    (doctors : List (DoctorDoc α)) (searchQuery : String) (other : Option String)
    (v : String) :
    (handleSpecialtySelect (handleSpecialtySelect ⟨searchQuery, none, other⟩ v) v =
        ⟨searchQuery, none, other⟩ ∧
      filteredDoctorsIn toLowerCase doctors
          (handleSpecialtySelect (handleSpecialtySelect ⟨searchQuery, none, other⟩ v) v) =
        filteredDoctorsIn toLowerCase doctors ⟨searchQuery, none, other⟩) ∧
    (handleCitySelect (handleCitySelect ⟨searchQuery, other, none⟩ v) v =
        ⟨searchQuery, other, none⟩ ∧
      filteredDoctorsIn toLowerCase doctors
          (handleCitySelect (handleCitySelect ⟨searchQuery, other, none⟩ v) v) =
        filteredDoctorsIn toLowerCase doctors ⟨searchQuery, other, none⟩) := by
  have h1 : handleSpecialtySelect (handleSpecialtySelect ⟨searchQuery, none, other⟩ v) v =
      ⟨searchQuery, none, other⟩ := by
    simp [handleSpecialtySelect]
  have h2 : handleCitySelect (handleCitySelect ⟨searchQuery, other, none⟩ v) v =
      ⟨searchQuery, other, none⟩ := by
    simp [handleCitySelect]
  exact ⟨⟨h1, by rw [h1]⟩, ⟨h2, by rw [h2]⟩⟩

/-! ## Order of the results (C18, C19) -/

/-- C18: for every corpus and filter state, the faceted result is the
corpus filtered by the filter callback: it is a sublist of the corpus, so
the records keep their relative order and are unchanged, and a record is in
it exactly when it is in the corpus and passes the callback. -/
theorem filteredDoctors_preserves_order {α : Type} (toLowerCase : String → String)
    (doctors : List (DoctorDoc α)) (searchQuery : String)
    (selectedSpecialty selectedCity : Option String) :
    filteredDoctors toLowerCase doctors searchQuery selectedSpecialty selectedCity =
        doctors.filter
          (fun d => matchesFilters toLowerCase searchQuery selectedSpecialty selectedCity d) ∧
    List.Sublist
        (filteredDoctors toLowerCase doctors searchQuery selectedSpecialty selectedCity)
        doctors ∧
    ∀ d, d ∈ filteredDoctors toLowerCase doctors searchQuery selectedSpecialty selectedCity ↔
      d ∈ doctors ∧
        matchesFilters toLowerCase searchQuery selectedSpecialty selectedCity d = true := by
  refine ⟨rfl, List.filter_sublist _, fun d => ?_⟩
  simp [filteredDoctors, List.mem_filter]

theorem distance_one_degree : calculateDistance realMath 0 0 0 1 = 6371 * (Real.pi / 180) := by
  rw [calculateDistance_eq_haversineSpec]
  have hpos : 0 ≤ Real.pi / 180 / 2 := by positivity
  have hle : Real.pi / 180 / 2 ≤ Real.pi / 2 := by
    have := Real.pi_pos
    linarith
  have hsin : 0 ≤ Real.sin (Real.pi / 180 / 2) :=
    Real.sin_nonneg_of_nonneg_of_le_pi hpos (by linarith [Real.pi_pos])
  simp only [haversineSpec]
  norm_num
  rw [Real.sqrt_sq hsin, Real.arcsin_sin (by linarith) hle]
  ring

theorem inRadius_toMapDoctor {α : Type} [LinearOrderedField α] (M : JSMath α)
    (u : Coordinate α) (radius : α) (d : DoctorDoc α) :
    inRadius M u radius (toMapDoctor d) =
      decide (calculateDistance M u.latitude u.longitude (orZero d.latitude)
        (orZero d.longitude) ≤ radius) :=
  rfl

/-- C19: for every corpus, reference location and radius, the result of
`getDoctorsInRadius` is a sublist of the corpus, so the records are in
natural corpus order. It is not ordered by distance: for the reference
location `(0, 0)` and radius 200, the corpus of a record at `(0, 1)`
followed by a record at `(0, 0)` is returned in that order, the farther
record first. -/
theorem getDoctorsInRadius_natural_order {α : Type} [LinearOrderedField α] (M : JSMath α)
    (userLocation : Option (Coordinate α)) (radius : α) (doctors : List (MapDoctor α)) :
    List.Sublist (getDoctorsInRadius M userLocation radius doctors) doctors ∧
    (getDoctorsInRadius realMath (some ⟨0, 0⟩) 200
        (fetchDoctors [docWith (some "Bob Jones") none none (some 0) (some 1),
          docWith (some "Alice Smith") none none (some 0) (some 0)]) =
      [toMapDoctor (docWith (some "Bob Jones") none none (some 0) (some 1)),
        toMapDoctor (docWith (some "Alice Smith") none none (some 0) (some 0))] ∧
      calculateDistance realMath 0 0 0 0 < calculateDistance realMath 0 0 0 1) := by
  refine ⟨?_, ?_, ?_⟩
  · cases userLocation with
    | none => exact List.nil_sublist _
    | some u => exact List.filter_sublist _
  · have hfar : calculateDistance realMath 0 0 0 1 ≤ 200 := by
      rw [distance_one_degree]
      have := Real.pi_lt_d2
      linarith
    have hnear : calculateDistance realMath 0 0 0 0 ≤ 200 := by
      rw [distance_origin_origin]
      norm_num
    simp [getDoctorsInRadius, fetchDoctors, List.filter_cons, inRadius_toMapDoctor, docWith,
      orZero_some, hfar, hnear]
  · rw [distance_origin_origin, distance_one_degree]
    have := Real.pi_pos
    linarith

/-! ## Radius search: independence from the text fields (C20) -/

/-- C20: whether a record is in the result of `getDoctorsInRadius` depends
only on its latitude and longitude. Two records with the same latitude and
longitude get the same answer from the filter callback, and two corpora
that agree position by position on latitude and longitude have the same
positions selected, whatever their names, specialties and cities. -/
theorem spatial_selection_depends_only_on_coordinates {α : Type} [LinearOrderedField α]
    (M : JSMath α) (u : Coordinate α) (radius : α) (docs1 docs2 : List (DoctorDoc α))
    (h : docs1.map (fun d => (d.latitude, d.longitude)) =
      docs2.map (fun d => (d.latitude, d.longitude))) :
    (fetchDoctors docs1).map (inRadius M u radius) =
        (fetchDoctors docs2).map (inRadius M u radius) ∧
    (getDoctorsInRadius M (some u) radius (fetchDoctors docs1)).length =
        (getDoctorsInRadius M (some u) radius (fetchDoctors docs2)).length := by
  have key : ∀ docs : List (DoctorDoc α),
      (fetchDoctors docs).map (inRadius M u radius) =
        (docs.map (fun d => (d.latitude, d.longitude))).map
          (fun p => decide (calculateDistance M u.latitude u.longitude
            (orZero p.1) (orZero p.2) ≤ radius)) := by
    intro docs
    simp only [fetchDoctors, List.map_map]
    rfl
  have hmask : (fetchDoctors docs1).map (inRadius M u radius) =
      (fetchDoctors docs2).map (inRadius M u radius) := by
    rw [key docs1, key docs2, h]
  refine ⟨hmask, ?_⟩
  have hlen : ∀ l : List (MapDoctor α),
      (getDoctorsInRadius M (some u) radius l).length =
        ((l.map (inRadius M u radius)).filter id).length := by
    intro l
    simp only [getDoctorsInRadius, List.filter_map, List.length_map]
    rfl
  rw [hlen, hlen, hmask]

/-- C20 at two corpora of one document each, both located at `(0, 0)`, that
differ in name, specialty and city. -/
theorem spatial_selection_depends_only_on_coordinates_witness :
    (fetchDoctors
        [(docWith (some "Alice Smith") (some "Cardiology") (some "Gaborone") (some 0) (some 0) :
          DoctorDoc ℝ)]).map (inRadius realMath ⟨0, 0⟩ 50) =
      (fetchDoctors
        [(docWith (some "Bob Jones") (some "Dermatology") none (some 0) (some 0) :
          DoctorDoc ℝ)]).map (inRadius realMath ⟨0, 0⟩ 50) :=
  (spatial_selection_depends_only_on_coordinates realMath ⟨0, 0⟩ 50
    [docWith (some "Alice Smith") (some "Cardiology") (some "Gaborone") (some 0) (some 0)]
    [docWith (some "Bob Jones") (some "Dermatology") none (some 0) (some 0)] rfl).1

/-! ## Lemmas on `newSet` -/

theorem mem_foldl_setAdd {β : Type} [DecidableEq β] (l acc : List β) (x : β) :
    x ∈ l.foldl setAdd acc ↔ x ∈ acc ∨ x ∈ l := by
  induction l generalizing acc with
  | nil => simp
  | cons y ys ih =>
    rw [List.foldl_cons, ih]
    by_cases hy : y ∈ acc
    · simp only [setAdd, hy, if_true, List.mem_cons]
      constructor
      · rintro (h | h)
        · exact Or.inl h
        · exact Or.inr (Or.inr h)
      · rintro (h | h | h)
        · exact Or.inl h
        · exact Or.inl (h ▸ hy)
        · exact Or.inr h
    · simp only [setAdd, hy, if_false, List.mem_append, List.mem_singleton, List.mem_cons]
      tauto

theorem nodup_foldl_setAdd {β : Type} [DecidableEq β] (l acc : List β) (h : acc.Nodup) :
    (l.foldl setAdd acc).Nodup := by
  induction l generalizing acc with
  | nil => exact h
  | cons y ys ih =>
    rw [List.foldl_cons]
    apply ih
    by_cases hy : y ∈ acc
    · simpa [setAdd, hy] using h
    · simp only [setAdd, hy, if_false]
      exact List.Nodup.append h (List.nodup_singleton y) (by simpa using hy)

theorem mem_newSet {β : Type} [DecidableEq β] (l : List β) (x : β) : x ∈ newSet l ↔ x ∈ l := by
  simp [newSet, mem_foldl_setAdd]

theorem nodup_newSet {β : Type} [DecidableEq β] (l : List β) : (newSet l).Nodup :=
  nodup_foldl_setAdd l [] List.nodup_nil

theorem indexOf_insert_lt_iff {β : Type} [DecidableEq β] (acc xs : List β) (x a b : β)
    (hx : x ∈ acc) :
    (List.indexOf a (acc ++ xs) < List.indexOf b (acc ++ xs) ↔
      List.indexOf a (acc ++ x :: xs) < List.indexOf b (acc ++ x :: xs)) := by
  by_cases ha : a ∈ acc
  · by_cases hb : b ∈ acc
    · simp only [List.indexOf_append_of_mem ha, List.indexOf_append_of_mem hb]
    · have hbx : x ≠ b := fun e => hb (e ▸ hx)
      have h1 := List.indexOf_lt_length.mpr ha
      rw [List.indexOf_append_of_mem ha, List.indexOf_append_of_mem ha,
        List.indexOf_append_of_not_mem hb, List.indexOf_append_of_not_mem hb]
      constructor <;> intro _ <;> omega
  · have hax : x ≠ a := fun e => ha (e ▸ hx)
    by_cases hb : b ∈ acc
    · have h1 := List.indexOf_lt_length.mpr hb
      rw [List.indexOf_append_of_not_mem ha, List.indexOf_append_of_not_mem ha,
        List.indexOf_append_of_mem hb, List.indexOf_append_of_mem hb]
      constructor <;> intro _ <;> omega
    · have hbx : x ≠ b := fun e => hb (e ▸ hx)
      rw [List.indexOf_append_of_not_mem ha, List.indexOf_append_of_not_mem ha,
        List.indexOf_append_of_not_mem hb, List.indexOf_append_of_not_mem hb,
        List.indexOf_cons_ne _ hax, List.indexOf_cons_ne _ hbx]
      constructor <;> intro _ <;> omega

theorem indexOf_foldl_setAdd_lt_iff {β : Type} [DecidableEq β] (l acc : List β) (a b : β) :
    (List.indexOf a (l.foldl setAdd acc) < List.indexOf b (l.foldl setAdd acc) ↔
      List.indexOf a (acc ++ l) < List.indexOf b (acc ++ l)) := by
  induction l generalizing acc with
  | nil => simp
  | cons x xs ih =>
    rw [List.foldl_cons, ih]
    by_cases hx : x ∈ acc
    · simp only [setAdd, hx, if_true]
      exact indexOf_insert_lt_iff acc xs x a b hx
    · simp only [setAdd, hx, if_false, List.append_assoc, List.singleton_append]

theorem indexOf_newSet_lt_iff {β : Type} [DecidableEq β] (l : List β) (a b : β) :
    (List.indexOf a (newSet l) < List.indexOf b (newSet l) ↔
      List.indexOf a l < List.indexOf b l) := by
  simpa [newSet] using indexOf_foldl_setAdd_lt_iff l [] a b

theorem indexOf_filter_lt_iff {β : Type} [DecidableEq β] (p : β → Bool) (l : List β) (a b : β)
    (hab : a ≠ b) (pa : p a = true) (pb : p b = true) :
    (List.indexOf a (l.filter p) < List.indexOf b (l.filter p) ↔
      List.indexOf a l < List.indexOf b l) := by
  induction l with
  | nil => simp
  | cons x xs ih =>
    by_cases hxa : x = a
    · subst hxa
      have hne : x ≠ b := hab
      simp [List.filter_cons, pa, List.indexOf_cons_self, List.indexOf_cons_ne _ hne]
    · by_cases hxb : x = b
      · subst hxb
        simp [List.filter_cons, pb, List.indexOf_cons_self]
      · by_cases hp : p x = true
        · simp only [List.filter_cons, hp, if_true, List.indexOf_cons_ne _ hxa,
            List.indexOf_cons_ne _ hxb, Nat.succ_lt_succ_iff]
          exact ih
        · simp only [List.filter_cons, hp, List.indexOf_cons_ne _ hxa,
            List.indexOf_cons_ne _ hxb, Nat.succ_lt_succ_iff]
          exact ih

theorem truthy_iff (c : Option String) : truthy c = true ↔ c ≠ none ∧ c ≠ some "" := by
  cases c with
  | none => simp [truthy]
  | some v => simp [truthy]

theorem uniqueCities_eq {α : Type} (doctors : List (DoctorDoc α)) :
    uniqueCities doctors = newSet ((doctors.map fun d => d.city).filter truthy) := by
  simp only [uniqueCities, List.filter_map]
  rfl

theorem mem_uniqueCities {α : Type} (doctors : List (DoctorDoc α)) (c : Option String) :
    c ∈ uniqueCities doctors ↔ truthy c = true ∧ ∃ d, d ∈ doctors ∧ d.city = c := by
  rw [uniqueCities_eq, mem_newSet, List.mem_filter, List.mem_map, and_comm]

theorem indexOf_map_eq_findIdx {β γ : Type} [DecidableEq γ] (f : β → γ) (l : List β) (c : γ) :
    List.indexOf c (l.map f) = l.findIdx (fun d => decide (f d = c)) := by
  induction l with
  | nil => rfl
  | cons x xs ih =>
    by_cases h : f x = c
    · simp [List.indexOf_cons_eq _ h, List.findIdx_cons, h]
    · simp [List.indexOf_cons_ne _ h, List.findIdx_cons, h, ih]

theorem findIdx_decide_eq {β : Type} [DecidableEq β] (l : List β) (c : β) :
    l.findIdx (fun x => decide (x = c)) = List.indexOf c l := by
  have h := indexOf_map_eq_findIdx (fun x : β => x) l c
  rw [List.map_id'] at h
  exact h.symm

/-! ## The city facet index (C13, C14) -/

/-- C13: for every corpus, the city facet index `uniqueCities` has no
duplicate, contains neither an absent value nor the empty string, and
contains exactly the non-empty city values that occur on some record of the
corpus. -/
theorem uniqueCities_nodup_and_members {α : Type} (doctors : List (DoctorDoc α)) :
    (uniqueCities doctors).Nodup ∧
    none ∉ uniqueCities doctors ∧
    some "" ∉ uniqueCities doctors ∧
    ∀ c : Option String, c ∈ uniqueCities doctors ↔
      (c ≠ none ∧ c ≠ some "") ∧ ∃ d, d ∈ doctors ∧ d.city = c := by
  refine ⟨nodup_newSet _, ?_, ?_, ?_⟩
  · intro h
    have := ((mem_uniqueCities doctors none).mp h).1
    simp [truthy] at this
  · intro h
    have := ((mem_uniqueCities doctors (some "")).mp h).1
    simp [truthy] at this
  · intro c
    rw [mem_uniqueCities, truthy_iff]

/-- C14: the city facet index lists its values in first-occurrence order.
For two distinct values `a` and `b` of the index, `a` comes before `b` in
the index if and only if the first record of the corpus with city `a` comes
before the first record with city `b`. -/
theorem uniqueCities_first_occurrence_order {α : Type} (doctors : List (DoctorDoc α))
    (a b : Option String) (ha : a ∈ uniqueCities doctors) (hb : b ∈ uniqueCities doctors)
    (hab : a ≠ b) :
    ((uniqueCities doctors).findIdx (fun c => decide (c = a)) <
        (uniqueCities doctors).findIdx (fun c => decide (c = b)) ↔
      doctors.findIdx (fun d => decide (d.city = a)) <
        doctors.findIdx (fun d => decide (d.city = b))) := by
  have ta := ((mem_uniqueCities doctors a).mp ha).1
  have tb := ((mem_uniqueCities doctors b).mp hb).1
  rw [findIdx_decide_eq, findIdx_decide_eq, uniqueCities_eq, indexOf_newSet_lt_iff,
    indexOf_filter_lt_iff truthy _ a b hab ta tb, indexOf_map_eq_findIdx,
    indexOf_map_eq_findIdx]

/-- C14 at a corpus of three documents with the cities Gaborone,
Francistown and Gaborone, for the values Gaborone and Francistown. -/
theorem uniqueCities_first_occurrence_order_witness :
    ((uniqueCities
          [(docWith (some "Alice Smith") none (some "Gaborone") none none : DoctorDoc ℝ),
            docWith (some "Bob Jones") none (some "Francistown") none none,
            docWith (some "Carol White") none (some "Gaborone") none none]).findIdx
          (fun c => decide (c = some "Gaborone")) <
        (uniqueCities
          [(docWith (some "Alice Smith") none (some "Gaborone") none none : DoctorDoc ℝ),
            docWith (some "Bob Jones") none (some "Francistown") none none,
            docWith (some "Carol White") none (some "Gaborone") none none]).findIdx
          (fun c => decide (c = some "Francistown")) ↔
      [(docWith (some "Alice Smith") none (some "Gaborone") none none : DoctorDoc ℝ),
          docWith (some "Bob Jones") none (some "Francistown") none none,
          docWith (some "Carol White") none (some "Gaborone") none none].findIdx
          (fun d => decide (d.city = some "Gaborone")) <
        [(docWith (some "Alice Smith") none (some "Gaborone") none none : DoctorDoc ℝ),
          docWith (some "Bob Jones") none (some "Francistown") none none,
          docWith (some "Carol White") none (some "Gaborone") none none].findIdx
          (fun d => decide (d.city = some "Francistown"))) :=
  uniqueCities_first_occurrence_order _ (some "Gaborone") (some "Francistown")
    ((mem_uniqueCities _ _).mpr ⟨rfl, _, List.mem_cons_self _ _, rfl⟩)
    ((mem_uniqueCities _ _).mpr
      ⟨rfl, _, List.mem_cons_of_mem _ (List.mem_cons_self _ _), rfl⟩)
    (by decide)

/-! ## Lemmas on `asciiLowerCase` -/

theorem char_toLower_toLower (c : Char) : c.toLower.toLower = c.toLower := by
  by_cases h : c.toNat ≥ 65 ∧ c.toNat ≤ 90
  · have e : c.toLower = Char.ofNat (c.toNat + 32) := by
      simp only [Char.toLower, h, and_self, if_true]
    rw [e]
    obtain ⟨h1, h2⟩ := h
    generalize c.toNat = n at h1 h2
    interval_cases n <;> decide
  · have e : c.toLower = c := by
      simp only [Char.toLower, h, if_false]
    rw [e, e]

theorem asciiLowerCase_idem (s : String) :
    asciiLowerCase (asciiLowerCase s) = asciiLowerCase s := by
  simp only [asciiLowerCase, List.map_map]
  congr 1
  apply List.map_congr_left
  intro c _
  exact char_toLower_toLower c

theorem asciiLowerCase_eq_empty (s : String) : asciiLowerCase s = "" ↔ s = "" := by
  cases s with
  | mk l =>
    cases l with
    | nil => simp [asciiLowerCase]
    | cons c cs =>
      constructor
      · intro h
        have h2 := congrArg String.data h
        simp [asciiLowerCase] at h2
      · intro h
        have h2 := congrArg String.data h
        simp at h2

theorem matchesSearch_lower_query {α : Type} (toLowerCase : String → String)
    (hidem : ∀ s, toLowerCase (toLowerCase s) = toLowerCase s) (q : String) (d : DoctorDoc α) :
    matchesSearch toLowerCase (toLowerCase q) d = matchesSearch toLowerCase q d := by
  simp only [matchesSearch, hidem]

theorem matchesSearch_lower_name {α : Type} (toLowerCase : String → String)
    (hidem : ∀ s, toLowerCase (toLowerCase s) = toLowerCase s)
    (hempty : ∀ s, toLowerCase s = "" ↔ s = "") (q : String) (d : DoctorDoc α) :
    matchesSearch toLowerCase q (withLowerCaseName toLowerCase d) =
      matchesSearch toLowerCase q d := by
  unfold matchesSearch withLowerCaseName
  cases hn : d.name with
  | none => simp
  | some n =>
    have hb : (toLowerCase n != "") = (n != "") := by
      by_cases h : n = ""
      · rw [(hempty n).mpr h, h]
      · have h2 : toLowerCase n ≠ "" := fun e => h ((hempty n).mp e)
        rw [bne_iff_ne.mpr h, bne_iff_ne.mpr h2]
    simp only [Option.map_some', hidem, hb]

theorem matchesFilters_false_of_facet_ne {α : Type} (toLowerCase : String → String)
    (q : String) (s : String) (hs : s ≠ "") (other : Option String) (d : DoctorDoc α) :
    (d.specialty ≠ some s → matchesFilters toLowerCase q (some s) other d = false) ∧
    (d.city ≠ some s → matchesFilters toLowerCase q other (some s) d = false) := by
  have ht : truthy (some s) = true := by simpa [truthy] using hs
  constructor
  · intro hne
    have h : matchesSpecialty (some s) d = false := by
      unfold matchesSpecialty
      rw [ht]
      simp only [Bool.not_true, Bool.false_or]
      cases hsp : strictEq d.specialty (some s) with
      | false => rfl
      | true => exact absurd ((strictEq_iff_of_truthy _ _ ht).mp hsp) hne
    simp [matchesFilters, h]
  · intro hne
    have h : matchesCity (some s) d = false := by
      unfold matchesCity
      rw [ht]
      simp only [Bool.not_true, Bool.false_or]
      cases hsp : strictEq d.city (some s) with
      | false => rfl
      | true => exact absurd ((strictEq_iff_of_truthy _ _ ht).mp hsp) hne
    simp [matchesFilters, h]

/-! ## Faceted search: how the fields are matched (C15, C16, C17) -/

/-- C15: text matching is case-insensitive. For every corpus, text query
and facet selections, the faceted result for the query is the faceted result
for the lowercased query, and the filter callback gives the same answer for
a record and for the record with its name lowercased. The lowercasing
function is assumed idempotent and to send only the empty string to the
empty string, as `String.prototype.toLowerCase` does. -/
theorem text_match_case_insensitive {α : Type} (toLowerCase : String → String)
    (hidem : ∀ s, toLowerCase (toLowerCase s) = toLowerCase s)
    (hempty : ∀ s, toLowerCase s = "" ↔ s = "") (doctors : List (DoctorDoc α))
    (searchQuery : String) (selectedSpecialty selectedCity : Option String) :
    filteredDoctors toLowerCase doctors searchQuery selectedSpecialty selectedCity =
        filteredDoctors toLowerCase doctors (toLowerCase searchQuery) selectedSpecialty
          selectedCity ∧
    ∀ d : DoctorDoc α,
      matchesFilters toLowerCase searchQuery selectedSpecialty selectedCity
          (withLowerCaseName toLowerCase d) =
        matchesFilters toLowerCase searchQuery selectedSpecialty selectedCity d := by
  constructor
  · unfold filteredDoctors
    congr 1
    funext d
    simp only [matchesFilters, matchesSearch_lower_query toLowerCase hidem]
  · intro d
    simp only [matchesFilters, matchesSearch_lower_name toLowerCase hidem hempty]
    rfl

/-- C15 at the lowercasing of ASCII letters, a corpus of one document named
`Bob Jones` and the text query `BOB`. -/
theorem text_match_case_insensitive_witness :
    filteredDoctors asciiLowerCase
        [(docWith (some "Bob Jones") none none none none : DoctorDoc ℝ)] "BOB" none none =
      filteredDoctors asciiLowerCase
        [(docWith (some "Bob Jones") none none none none : DoctorDoc ℝ)]
        (asciiLowerCase "BOB") none none :=
  (text_match_case_insensitive asciiLowerCase asciiLowerCase_idem asciiLowerCase_eq_empty
    [docWith (some "Bob Jones") none none none none] "BOB" none none).1

/-- C16, as stated, fails: when the selected specialty is the empty string,
a record whose specialty is `Cardiology`, a string other than the selection,
passes the filter callback. -/
theorem empty_selection_excludes_nothing :
    (docWith (some "Alice Smith") (some "Cardiology") none none none :
        DoctorDoc ℝ).specialty ≠ some "" ∧
    matchesFilters asciiLowerCase "" (some "") none
      (docWith (some "Alice Smith") (some "Cardiology") none none none : DoctorDoc ℝ) = true :=
  ⟨by decide, by decide⟩

/-- C16, amended: specialty and city are matched by case-sensitive exact
equality. When a non-empty specialty `s` is selected, a record is excluded
whenever its specialty is absent or any string other than `s`, so also when
it differs from `s` only in letter case or strictly contains `s`; the same
holds for a non-empty selected city. -/
theorem facet_match_is_exact {α : Type} (toLowerCase : String → String)
    (searchQuery : String) (s : String) (hs : s ≠ "") (other : Option String)
    (d : DoctorDoc α) :
    (d.specialty ≠ some s →
      matchesFilters toLowerCase searchQuery (some s) other d = false ∧
      ∀ doctors : List (DoctorDoc α),
        d ∉ filteredDoctors toLowerCase doctors searchQuery (some s) other) ∧
    (d.city ≠ some s →
      matchesFilters toLowerCase searchQuery other (some s) d = false ∧
      ∀ doctors : List (DoctorDoc α),
        d ∉ filteredDoctors toLowerCase doctors searchQuery other (some s)) := by
  obtain ⟨h1, h2⟩ := matchesFilters_false_of_facet_ne toLowerCase searchQuery s hs other d
  constructor
  · intro hne
    refine ⟨h1 hne, fun doctors hmem => ?_⟩
    have := (List.mem_filter.mp hmem).2
    rw [h1 hne] at this
    exact Bool.false_ne_true this
  · intro hne
    refine ⟨h2 hne, fun doctors hmem => ?_⟩
    have := (List.mem_filter.mp hmem).2
    rw [h2 hne] at this
    exact Bool.false_ne_true this

/-- C16, amended, at the selected specialty `Cardiology` and a record whose
specialty is `cardiology`. -/
theorem facet_match_is_exact_witness :
    matchesFilters asciiLowerCase "" (some "Cardiology") none
      (docWith (some "Alice Smith") (some "cardiology") none none none : DoctorDoc ℝ) = false :=
  ((facet_match_is_exact asciiLowerCase "" "Cardiology" (by decide) none
    (docWith (some "Alice Smith") (some "cardiology") none none none)).1 (by decide)).1

/-- C17, as stated, fails: when the selected specialty is the empty string,
a record that has no specialty passes the filter callback. -/
theorem absent_specialty_passes_empty_selection :
    (docWith (some "Alice Smith") none (some "Gaborone") none none :
        DoctorDoc ℝ).specialty = none ∧
    matchesFilters asciiLowerCase "" (some "") none
      (docWith (some "Alice Smith") none (some "Gaborone") none none : DoctorDoc ℝ) = true :=
  ⟨rfl, by decide⟩

/-- C17, amended: the filter callback is defined on every record, whichever
of name, specialty and city are absent. A record with no name is excluded
for every text query, a record with no specialty is excluded when a
non-empty specialty is selected, and a record with no city is excluded when
a non-empty city is selected. -/
theorem absent_field_fails_predicate {α : Type} (toLowerCase : String → String)
    (searchQuery : String) (selectedSpecialty selectedCity : Option String)
    (d : DoctorDoc α) :
    (d.name = none →
      matchesFilters toLowerCase searchQuery selectedSpecialty selectedCity d = false) ∧
    (d.specialty = none → ∀ s : String, s ≠ "" →
      matchesFilters toLowerCase searchQuery (some s) selectedCity d = false) ∧
    (d.city = none → ∀ s : String, s ≠ "" →
      matchesFilters toLowerCase searchQuery selectedSpecialty (some s) d = false) := by
  refine ⟨?_, ?_, ?_⟩
  · intro h
    simp [matchesFilters, matchesSearch, h]
  · intro h s hs
    apply (matchesFilters_false_of_facet_ne toLowerCase searchQuery s hs selectedCity d).1
    rw [h]
    exact fun e => Option.noConfusion e
  · intro h s hs
    apply (matchesFilters_false_of_facet_ne toLowerCase searchQuery s hs selectedSpecialty d).2
    rw [h]
    exact fun e => Option.noConfusion e

/-- C17, amended, at a record with no specialty and the selected specialty
`Cardiology`. -/
theorem absent_field_fails_predicate_witness :
    matchesFilters asciiLowerCase "" (some "Cardiology") none
      (docWith (some "Alice Smith") none (some "Gaborone") none none : DoctorDoc ℝ) = false :=
  (absent_field_fails_predicate asciiLowerCase "" none none
    (docWith (some "Alice Smith") none (some "Gaborone") none none)).2.1 rfl "Cardiology"
    (by decide)

/-! ## The radius control (C21) -/

theorem pressRadius_bounded {α : Type} [LinearOrderedField α] (r : α) (p : RadiusPress)
    (h : ∃ n : ℕ, r = (n : α) ∧ 10 ≤ n ∧ n ≤ 200) :
    ∃ n : ℕ, pressRadius r p = (n : α) ∧ 10 ≤ n ∧ n ≤ 200 := by
  obtain ⟨n, rfl, h1, h2⟩ := h
  cases p with
  | decrement =>
    by_cases h20 : 20 ≤ n
    · refine ⟨n - 10, ?_, by omega, by omega⟩
      have hc : (20 : α) ≤ (n : α) := by exact_mod_cast h20
      simp only [pressRadius, decreaseRadius]
      rw [max_eq_right (by linarith), Nat.cast_sub h1]
      norm_num
    · refine ⟨10, ?_, le_refl _, by omega⟩
      have hc : (n : α) ≤ 20 := by exact_mod_cast (by omega : n ≤ 20)
      simp only [pressRadius, decreaseRadius]
      rw [max_eq_left (by linarith)]
      norm_num
  | increment =>
    by_cases h190 : n ≤ 190
    · refine ⟨n + 10, ?_, by omega, by omega⟩
      have hc : (n : α) ≤ 190 := by exact_mod_cast h190
      simp only [pressRadius, increaseRadius]
      rw [min_eq_right (by linarith)]
      norm_num
    · refine ⟨200, ?_, by omega, le_refl _⟩
      have hc : (190 : α) ≤ (n : α) := by exact_mod_cast (by omega : 190 ≤ n)
      simp only [pressRadius, increaseRadius]
      rw [min_eq_left (by linarith)]
      norm_num

theorem foldl_pressRadius_bounded {α : Type} [LinearOrderedField α]
    (presses : List RadiusPress) (r : α) (h : ∃ n : ℕ, r = (n : α) ∧ 10 ≤ n ∧ n ≤ 200) :
    ∃ n : ℕ, presses.foldl pressRadius r = (n : α) ∧ 10 ≤ n ∧ n ≤ 200 := by
  induction presses generalizing r with
  | nil => exact h
  | cons p ps ih =>
    rw [List.foldl_cons]
    exact ih _ (pressRadius_bounded r p h)

/-- C21: starting from the initial radius 100, after any finite sequence of
presses of the decrement button (`max(10, r - 10)`) and of the increment
button (`min(200, r + 10)`) the radius is an integer between 10 and 200. -/
theorem radius_within_bounds {α : Type} [LinearOrderedField α]
    (presses : List RadiusPress) :
    (∃ n : ℕ, (radiusAfter presses : α) = (n : α) ∧ 10 ≤ n ∧ n ≤ 200) ∧
    (10 : α) ≤ radiusAfter presses ∧ (radiusAfter presses : α) ≤ 200 := by
  have h : ∃ n : ℕ, (radiusAfter presses : α) = (n : α) ∧ 10 ≤ n ∧ n ≤ 200 := by
    apply foldl_pressRadius_bounded
    exact ⟨100, by simp [initialRadius], by omega, by omega⟩
  refine ⟨h, ?_⟩
  obtain ⟨n, hn, h1, h2⟩ := h
  rw [hn]
  exact ⟨by exact_mod_cast h1, by exact_mod_cast h2⟩

/-! ## Radius search without a reference location (C22) -/

/-- C22: when the user location is absent, `getDoctorsInRadius` returns the
empty list for every corpus and radius. The result does not depend on the
`Math` object: `calculateDistance` is not evaluated. -/
theorem getDoctorsInRadius_without_location {α : Type} [LinearOrderedField α]
    (M M2 : JSMath α) (radius : α) (doctors : List (MapDoctor α)) :
    getDoctorsInRadius M none radius doctors = [] ∧
    getDoctorsInRadius M none radius doctors = getDoctorsInRadius M2 none radius doctors ∧
    (getDoctorsInRadius M none radius doctors).length = 0 :=
  ⟨rfl, rfl, rfl⟩

/-! ## Bounds on the distance

The bounds of this section are bounds on the exact real values. They do not
carry over to the doubles the code computes with: for the points `(8, 0)`
and `(-8, 180)` the exact haversine term is `1`, the doubles give
`1.0000000000000002`, and `Math.sqrt(1 - a)` is NaN there. -/

theorem calculateDistance_eq_arcsin (lat1 lon1 lat2 lon2 : ℝ) :
    calculateDistance realMath lat1 lon1 lat2 lon2 =
      6371 * (2 * Real.arcsin (Real.sqrt (haversineA realMath lat1 lon1 lat2 lon2))) := by
  obtain ⟨h0, h1⟩ := haversineA_mem_unit lat1 lon1 lat2 lon2
  simp only [calculateDistance]
  rw [atan2_sqrt_eq_arcsin _ h0 h1]

theorem calculateDistance_range (lat1 lon1 lat2 lon2 : ℝ) :
    0 ≤ calculateDistance realMath lat1 lon1 lat2 lon2 ∧
      calculateDistance realMath lat1 lon1 lat2 lon2 ≤ 6371 * Real.pi := by
  rw [calculateDistance_eq_arcsin]
  have h0 : 0 ≤ Real.arcsin (Real.sqrt (haversineA realMath lat1 lon1 lat2 lon2)) :=
    Real.arcsin_nonneg.mpr (Real.sqrt_nonneg _)
  have h1 := Real.arcsin_le_pi_div_two (Real.sqrt (haversineA realMath lat1 lon1 lat2 lon2))
  constructor
  · positivity
  · linarith

theorem distance_ge_latitude_gap (lat1 lon1 lat2 lon2 : ℝ)
    (hcos : 0 ≤ Real.cos (lat1 * (Real.pi / 180)) * Real.cos (lat2 * (Real.pi / 180)))
    (h0 : 0 ≤ (lat2 - lat1) * (Real.pi / 180) / 2)
    (h1 : (lat2 - lat1) * (Real.pi / 180) / 2 ≤ Real.pi / 2) :
    6371 * ((lat2 - lat1) * (Real.pi / 180)) ≤
      calculateDistance realMath lat1 lon1 lat2 lon2 := by
  rw [calculateDistance_eq_arcsin]
  set θ := (lat2 - lat1) * (Real.pi / 180) / 2 with hθ
  have hsin : 0 ≤ Real.sin θ :=
    Real.sin_nonneg_of_nonneg_of_le_pi h0 (by linarith [Real.pi_pos])
  have ha : Real.sin θ ^ 2 ≤ haversineA realMath lat1 lon1 lat2 lon2 := by
    simp only [haversineA, realMath]
    rw [← hθ]
    have ht := mul_nonneg hcos
      (mul_self_nonneg (Real.sin ((lon2 - lon1) * (Real.pi / 180) / 2)))
    nlinarith
  have hle : Real.sin θ ≤ Real.sqrt (haversineA realMath lat1 lon1 lat2 lon2) := by
    rw [← Real.sqrt_sq hsin]
    exact Real.sqrt_le_sqrt ha
  have harc := Real.monotone_arcsin hle
  rw [Real.arcsin_sin (by linarith [Real.pi_pos]) h1] at harc
  have e : (lat2 - lat1) * (Real.pi / 180) = 2 * θ := by
    rw [hθ]
    ring
  rw [e]
  linarith

theorem distance_alice_bob :
    50 < calculateDistance realMath (-24.6) 25.9 (-21.2) 27.5 := by
  have hpi := Real.pi_gt_three
  have hpi2 := Real.pi_lt_d2
  have hc1 : 0 ≤ Real.cos (-24.6 * (Real.pi / 180)) :=
    Real.cos_nonneg_of_neg_pi_div_two_le_of_le (by linarith) (by linarith)
  have hc2 : 0 ≤ Real.cos (-21.2 * (Real.pi / 180)) :=
    Real.cos_nonneg_of_neg_pi_div_two_le_of_le (by linarith) (by linarith)
  have h := distance_ge_latitude_gap (-24.6) 25.9 (-21.2) 27.5 (mul_nonneg hc1 hc2)
    (by norm_num; positivity) (by linarith)
  linarith

/-! ## Scenarios (C23, C24, C25) -/

/-- C23: for the corpus of Alice Smith at `(-24.6, 25.9)` and Bob Jones at
`(-21.2, 27.5)`, the reference location `(-24.6, 25.9)` and radius 50,
`getDoctorsInRadius` returns exactly the record of Alice Smith, and the
distance from the reference location to Bob Jones is more than 50 km. -/
theorem spatial_scenario :
    getDoctorsInRadius realMath (some ⟨-24.6, 25.9⟩) 50
        (fetchDoctors
          [docWith (some "Alice Smith") (some "Cardiology") (some "Gaborone")
              (some (-24.6)) (some 25.9),
            docWith (some "Bob Jones") (some "Dermatology") (some "Francistown")
              (some (-21.2)) (some 27.5)]) =
      [toMapDoctor (docWith (some "Alice Smith") (some "Cardiology") (some "Gaborone")
        (some (-24.6)) (some 25.9))] ∧
    50 < calculateDistance realMath (-24.6) 25.9 (-21.2) 27.5 := by
  refine ⟨?_, distance_alice_bob⟩
  have halice : inRadius realMath ⟨-24.6, 25.9⟩ 50
      (toMapDoctor (docWith (some "Alice Smith") (some "Cardiology") (some "Gaborone")
        (some (-24.6)) (some 25.9))) = true := by
    rw [inRadius_toMapDoctor]
    simp only [docWith, orZero_some, decide_eq_true_eq]
    rw [calculateDistance_of_haversineA_zero _ _ _ _ (haversineA_self _ _)]
    norm_num
  have hbob : inRadius realMath ⟨-24.6, 25.9⟩ 50
      (toMapDoctor (docWith (some "Bob Jones") (some "Dermatology") (some "Francistown")
        (some (-21.2)) (some 27.5))) = false := by
    rw [inRadius_toMapDoctor]
    simp only [docWith, orZero_some, decide_eq_false_iff_not, not_le]
    exact distance_alice_bob
  simp only [getDoctorsInRadius, fetchDoctors, List.map_cons, List.map_nil]
  rw [List.filter_cons_of_pos halice, List.filter_cons_of_neg (by rw [hbob]; simp),
    List.filter_nil]

/-- C24: for the corpus of Alice Smith (Cardiology, Gaborone) and Bob Jones
(Dermatology, Francistown), the faceted result for the text query `bob`
with no facet selected is exactly the record of Bob Jones, and the faceted
result for the empty text query with the specialty `Cardiology` selected is
exactly the record of Alice Smith. The lowercasing function is assumed to
lowercase the four strings involved as `String.prototype.toLowerCase`
does. -/
theorem faceted_scenario {α : Type} (toLowerCase : String → String)
    (hq : toLowerCase "bob" = "bob") (he : toLowerCase "" = "")
    (ha : toLowerCase "Alice Smith" = "alice smith")
    (hb : toLowerCase "Bob Jones" = "bob jones") (la lo lb lp : Option α) :
    filteredDoctors toLowerCase
        [docWith (some "Alice Smith") (some "Cardiology") (some "Gaborone") la lo,
          docWith (some "Bob Jones") (some "Dermatology") (some "Francistown") lb lp]
        "bob" none none =
      [docWith (some "Bob Jones") (some "Dermatology") (some "Francistown") lb lp] ∧
    filteredDoctors toLowerCase
        [docWith (some "Alice Smith") (some "Cardiology") (some "Gaborone") la lo,
          docWith (some "Bob Jones") (some "Dermatology") (some "Francistown") lb lp]
        "" (some "Cardiology") none =
      [docWith (some "Alice Smith") (some "Cardiology") (some "Gaborone") la lo] := by
  have e1 : includes "alice smith" "bob" = false := by decide
  have e2 : includes "bob jones" "bob" = true := by decide
  have e3 : includes "alice smith" "" = true := by decide
  have e4 : includes "bob jones" "" = true := by decide
  have n1 : ("Alice Smith" != "") = true := by decide
  have n2 : ("Bob Jones" != "") = true := by decide
  have n3 : ("Cardiology" != "") = true := by decide
  have s1 : ("Cardiology" == "Cardiology") = true := by decide
  have s2 : ("Dermatology" == "Cardiology") = false := by decide
  constructor
  · simp [filteredDoctors, List.filter_cons, matchesFilters, matchesSearch, matchesSpecialty,
      matchesCity, truthy, docWith, hq, ha, hb, e1, e2, n1, n2]
  · simp [filteredDoctors, List.filter_cons, matchesFilters, matchesSearch, matchesSpecialty,
      matchesCity, truthy, strictEq, docWith, he, ha, hb, e3, e4, n1, n2, n3, s1, s2]

/-- C24 at the lowercasing of ASCII letters and documents without
coordinates. -/
theorem faceted_scenario_witness :
    filteredDoctors asciiLowerCase
        [(docWith (some "Alice Smith") (some "Cardiology") (some "Gaborone") none none :
            DoctorDoc ℝ),
          docWith (some "Bob Jones") (some "Dermatology") (some "Francistown") none none]
        "bob" none none =
      [docWith (some "Bob Jones") (some "Dermatology") (some "Francistown") none none] :=
  (faceted_scenario asciiLowerCase rfl rfl rfl rfl none none none none).1

/-- C25: over an empty corpus the faceted result is empty for every filter
state and the spatial result is empty for every reference location and
radius; in both modes the length of the result, which is the count
displayed, is 0, and the results line of the search screen reads
`0 Doctors Found`. -/
theorem empty_corpus_results {α : Type} [LinearOrderedField α]
    (toLowerCase : String → String) (searchQuery : String)
    (selectedSpecialty selectedCity : Option String) (M : JSMath α)
    (userLocation : Option (Coordinate α)) (radius : α) :
    filteredDoctors toLowerCase ([] : List (DoctorDoc α)) searchQuery selectedSpecialty
        selectedCity = [] ∧
    (filteredDoctors toLowerCase ([] : List (DoctorDoc α)) searchQuery selectedSpecialty
        selectedCity).length = 0 ∧
    resultsText (filteredDoctors toLowerCase ([] : List (DoctorDoc α)) searchQuery
        selectedSpecialty selectedCity).length = "0 Doctors Found" ∧
    getDoctorsInRadius M userLocation radius (fetchDoctors []) = [] ∧
    (getDoctorsInRadius M userLocation radius (fetchDoctors [])).length = 0 := by
  have h : getDoctorsInRadius M userLocation radius (fetchDoctors []) = [] := by
    cases userLocation <;> rfl
  have hr : resultsText 0 = "0 Doctors Found" := by decide
  refine ⟨rfl, rfl, hr, h, ?_⟩
  rw [h]
  rfl

/-! ## The city chips (C27) -/

/-- C27: for a corpus in which every record has a non-empty name, every
value `c` of the city facet index is a non-empty string `v`; selecting it
from the initial state, where the text query is empty and no specialty is
selected, gives a faceted result that is not empty and in which every
record has city `c`. The lowercasing function is assumed to send the empty
string to the empty string, as `String.prototype.toLowerCase` does. -/
theorem city_chip_sound {α : Type} (toLowerCase : String → String)
    (hlow : toLowerCase "" = "") (doctors : List (DoctorDoc α))
    (hnames : ∀ d, d ∈ doctors → ∃ n, d.name = some n ∧ n ≠ "")
    (c : Option String) (hc : c ∈ uniqueCities doctors) :
    ∃ v : String, c = some v ∧ v ≠ "" ∧
      handleCitySelect initialState v = ⟨"", none, some v⟩ ∧
      filteredDoctorsIn toLowerCase doctors (handleCitySelect initialState v) ≠ [] ∧
      ∀ d, d ∈ filteredDoctorsIn toLowerCase doctors (handleCitySelect initialState v) →
        d.city = c := by
  obtain ⟨ht, d0, hd0, hcity0⟩ := (mem_uniqueCities doctors c).mp hc
  obtain ⟨hnone, hempty⟩ := (truthy_iff c).mp ht
  cases c with
  | none => exact absurd rfl hnone
  | some v =>
    have hv : v ≠ "" := fun e => hempty (by rw [e])
    have hsel : handleCitySelect initialState v = ⟨"", none, some v⟩ := by
      simp [handleCitySelect, initialState]
    refine ⟨v, rfl, hv, hsel, ?_, ?_⟩
    · rw [hsel]
      apply List.ne_nil_of_mem (a := d0)
      apply List.mem_filter.mpr
      refine ⟨hd0, ?_⟩
      obtain ⟨n, hn, hne⟩ := hnames d0 hd0
      have h1 : matchesSearch toLowerCase "" d0 = true := by
        apply (matchesSearch_iff toLowerCase "" d0).mpr
        refine ⟨n, hn, hne, ?_⟩
        rw [hlow]
        exact List.nil_infix
      have h2 : matchesSpecialty none d0 = true := by
        simp [matchesSpecialty, truthy]
      have h3 : matchesCity (some v) d0 = true :=
        (facet_pass_iff d0.city (some v)).mpr (Or.inr (Or.inr hcity0))
      simp only [matchesFilters, h1, h2, h3, Bool.and_self]
    · intro d hd
      rw [hsel] at hd
      have hm := (List.mem_filter.mp hd).2
      simp only [matchesFilters, Bool.and_eq_true] at hm
      rcases (facet_pass_iff d.city (some v)).mp hm.2 with h | h | h
      · exact Option.noConfusion h
      · exact absurd (Option.some.inj h) hv
      · exact h

/-- C27 at the lowercasing of ASCII letters, the corpus of Alice Smith in
Gaborone and Bob Jones in Francistown, and the value `Gaborone`. -/
theorem city_chip_sound_witness :
    ∃ v : String, some "Gaborone" = some v ∧ v ≠ "" ∧
      handleCitySelect initialState v = ⟨"", none, some v⟩ ∧
      filteredDoctorsIn asciiLowerCase
          [(docWith (some "Alice Smith") (some "Cardiology") (some "Gaborone") none none :
              DoctorDoc ℝ),
            docWith (some "Bob Jones") (some "Dermatology") (some "Francistown") none none]
          (handleCitySelect initialState v) ≠ [] ∧
      ∀ d, d ∈ filteredDoctorsIn asciiLowerCase
          [(docWith (some "Alice Smith") (some "Cardiology") (some "Gaborone") none none :
              DoctorDoc ℝ),
            docWith (some "Bob Jones") (some "Dermatology") (some "Francistown") none none]
          (handleCitySelect initialState v) →
        d.city = some "Gaborone" :=
  city_chip_sound asciiLowerCase rfl
    [docWith (some "Alice Smith") (some "Cardiology") (some "Gaborone") none none,
      docWith (some "Bob Jones") (some "Dermatology") (some "Francistown") none none]
    (by
      intro d hd
      simp only [List.mem_cons, List.mem_singleton, List.not_mem_nil, or_false] at hd
      rcases hd with h | h
      · exact ⟨"Alice Smith", by rw [h]; rfl, by decide⟩
      · exact ⟨"Bob Jones", by rw [h]; rfl, by decide⟩)
    (some "Gaborone")
    ((mem_uniqueCities _ _).mpr ⟨rfl, _, List.mem_cons_self _ _, rfl⟩)

end DoctorFinder
